import Mathlib

/-!
Verification development for the pdf-contract-bridge conversion pipeline.

The TypeScript sources are shallowly embedded: pure functions become Lean
functions over `String`/`List Char`; the JavaScript regular expressions used
by the extractors are embedded via a small backtracking matcher (`Js.RE`)
whose candidate ordering mirrors the JS engine (leftmost position first,
alternation left to right, greedy quantifiers longest first, lazy shortest
first); external collaborators (the language-model call, `JSON.parse`, the
solc compiler, the network strategies, the database) are passed in as
explicit parameters or modelled as explicit state.
-/

namespace Js

/-- JavaScript whitespace (the ASCII part relevant to these sources):
matched by `\s`, collapsed by `replace(/\s+/g, " ")` and removed by
`String.prototype.trim`. -/
def isWs (c : Char) : Bool :=
  c = ' ' || c = '\t' || c = '\n' || c = '\r' || c = '\x0b' || c = '\x0c'

/-- One pass of `replace(/\s+/g, " ")`: every maximal whitespace run becomes
a single space.  The boolean records whether we are inside a run. -/
def collapseWsAux : Bool → List Char → List Char
  | _, [] => []
  | inRun, c :: rest =>
    if isWs c then
      if inRun then collapseWsAux true rest
      else ' ' :: collapseWsAux true rest
    else c :: collapseWsAux false rest

def collapseWs (l : List Char) : List Char := collapseWsAux false l

def dropLeadingWs (l : List Char) : List Char := l.dropWhile isWs

/-- `String.prototype.trim`. -/
def trimChars (l : List Char) : List Char :=
  dropLeadingWs ((dropLeadingWs l.reverse).reverse)

def strTrim (s : String) : String := String.mk (trimChars s.data)

/-- `text.replace(/\s+/g, " ").trim()` as used to normalize input text. -/
def cleanText (s : String) : String := String.mk (trimChars (collapseWs s.data))

/-- Regular-expression abstract syntax, restricted to the constructs used by
this repository: literals, single-character classes, quantified classes
(all quantifiers in the sources apply to character classes), sequencing,
alternation and numbered capture groups. -/
inductive RE where
  | eps : RE
  | lit : String → RE
  | cls : (Char → Bool) → RE
  | rep : (Char → Bool) → Nat → Option Nat → Bool → RE
  | seq : RE → RE → RE
  | alt : RE → RE → RE
  | grp : RE → RE

/-- Case folding used for the `i` flag: both sides are lowercased. -/
def fold (ci : Bool) (c : Char) : Char := if ci then c.toLower else c

/-- Match a literal (with optional case folding) against a prefix of the
input, returning the remaining suffix. -/
def litMatch (ci : Bool) : List Char → List Char → Option (List Char)
  | [], input => some input
  | _ :: _, [] => none
  | p :: ps, c :: cs => if fold ci c = fold ci p then litMatch ci ps cs else none

/-- Length of the maximal prefix of characters satisfying `p`. -/
def countRun (p : Char → Bool) : List Char → Nat
  | [] => 0
  | c :: rest => if p c then countRun p rest + 1 else 0

/-- All ways to match a regex against a prefix of the input, as
`(remaining suffix, captured groups)` pairs in backtracking priority order
(head = the match the JS engine commits to). -/
def matchRe (ci : Bool) : RE → List Char → List (List Char × List String)
  | .eps, input => [(input, [])]
  | .lit s, input =>
    match litMatch ci s.data input with
    | some rest => [(rest, [])]
    | none => []
  | .cls p, input =>
    match input with
    | [] => []
    | c :: rest => if p c then [(rest, [])] else []
  | .rep p lo hi greedy, input =>
    let run := countRun p input
    let top := match hi with | none => run | some m => Nat.min m run
    let ks := List.range' lo (top + 1 - lo)
    let ks := if greedy then ks.reverse else ks
    ks.map (fun k => (input.drop k, []))
  | .seq a b, input =>
    (matchRe ci a input).flatMap (fun pr =>
      (matchRe ci b pr.1).map (fun qr => (qr.1, pr.2 ++ qr.2)))
  | .alt a b, input => matchRe ci a input ++ matchRe ci b input
  | .grp r, input =>
    (matchRe ci r input).map (fun pr =>
      (pr.1, String.mk (input.take (input.length - pr.1.length)) :: pr.2))

/-- Scan start positions left to right; at the first position where the
regex matches, return `(suffix at the match position, suffix after the
match, captures)`. -/
def searchAux (ci : Bool) (re : RE) : List Char → Option (List Char × List Char × List String)
  | [] =>
    match (matchRe ci re []).head? with
    | some pr => some ([], pr.1, pr.2)
    | none => none
  | c :: rest =>
    match (matchRe ci re (c :: rest)).head? with
    | some pr => some (c :: rest, pr.1, pr.2)
    | none => searchAux ci re rest

/-- `String.prototype.match` with a non-global regex: the whole matched text
plus the captured groups, or `none`. -/
def jsMatch (ci : Bool) (re : RE) (s : String) : Option (String × List String) :=
  match searchAux ci re s.data with
  | some (atPos, rest, caps) =>
    some (String.mk (atPos.take (atPos.length - rest.length)), caps)
  | none => none

/-- `RegExp.prototype.test`. -/
def reTest (ci : Bool) (re : RE) (s : String) : Bool := (jsMatch ci re s).isSome

/-- Repeated `exec` with the `g` flag: non-overlapping matches, resuming
after each match (advancing one character after an empty match, as the JS
`lastIndex` rule does).  Fuelled by the input length for termination. -/
def execAllAux (ci : Bool) (re : RE) : Nat → List Char → List (String × List String)
  | 0, _ => []
  | Nat.succ fuel, input =>
    match searchAux ci re input with
    | none => []
    | some (atPos, rest, caps) =>
      let whole := String.mk (atPos.take (atPos.length - rest.length))
      let next := if rest.length = atPos.length then atPos.drop 1 else rest
      (whole, caps) :: execAllAux ci re fuel next

def jsMatchAll (ci : Bool) (re : RE) (s : String) : List (String × List String) :=
  execAllAux ci re (s.data.length + 1) s.data

/-- `[...new Set(xs)]`: deduplicate preserving first-seen order. -/
def dedupAux : List String → List String → List String
  | _, [] => []
  | seen, x :: xs =>
    if x ∈ seen then dedupAux seen xs else x :: dedupAux (x :: seen) xs

def dedupFirst (l : List String) : List String := dedupAux [] l

/-- JS truthiness of an optional string (`undefined` and `""` are falsy). -/
def truthy : Option String → Bool
  | none => false
  | some s => ¬ (s = "")

/-- `a || b` on an optional string with a string default. -/
def jsOr (a : Option String) (b : String) : String :=
  match a with
  | some s => if s = "" then b else s
  | none => b

/-- `String.prototype.toLowerCase` (character-wise, ASCII as used here). -/
def toLowerStr (s : String) : String := String.mk (s.data.map Char.toLower)

end Js

namespace Extractor

/-! Embedding of `contractExtractor` (the OpenAI-assisted extractor with
pattern fallback): interface `ContractData`, the pattern extractors, and
`extractContractData`. -/

open Js

/-- The `terms` object of the extractor's `ContractData`. -/
structure ContractTerms where
  payment : Option String
  duration : Option String
  trigger : Option String
  startDate : Option String
  endDate : Option String
  obligations : Option (List String)
deriving DecidableEq, Repr

/-- The extractor's `ContractData` interface. -/
structure ContractData where
  type : String
  parties : List String
  terms : ContractTerms
  summary : String
deriving DecidableEq, Repr

def wsPlus : RE := RE.rep isWs 1 none true

def wsStar : RE := RE.rep isWs 0 none true

def seqL (l : List RE) : RE := l.foldr RE.seq RE.eps

/-- A never-matching regex, used as the unit of list alternation. -/
def failRE : RE := RE.cls (fun _ => false)

def altL (l : List RE) : RE := l.foldr RE.alt failRE

/-- Greedy `r?`. -/
def optRE (r : RE) : RE := RE.alt r RE.eps

/-- `[:=]?`. -/
def optColonEq : RE := optRE (RE.cls (fun c => c = ':' || c = '='))

def notComma (c : Char) : Bool := ¬ (c = ',')

/-- `[^,.\n]` (inside a class, `.` is a literal dot). -/
def notCommaDotNl (c : Char) : Bool := ¬ (c = ',' || c = '.' || c = '\n')

def isDigitCh (c : Char) : Bool := c.isDigit

/-- `[0-9,]`. -/
def digitOrComma (c : Char) : Bool := c.isDigit || c = ','

/-- `[^a-z]` under the `i` flag excludes both cases. -/
def notAlpha (c : Char) : Bool := ¬ c.isAlpha

/-- `[A-Z]` under the `i` flag matches both cases. -/
def alphaCI (c : Char) : Bool := c.isAlpha

/-- The ordered `(pattern, label)` rules of `extractContractType`. -/
def typePatterns : List (RE × String) :=
  [ (seqL [RE.lit "service", wsPlus, RE.lit "agreement"], "Service Agreement"),
    (seqL [RE.lit "purchase", wsPlus, RE.lit "agreement"], "Purchase Agreement"),
    (seqL [RE.lit "employment", wsPlus, RE.lit "contract"], "Employment Contract"),
    (seqL [RE.lit "lease", wsPlus, RE.lit "agreement"], "Lease Agreement"),
    (seqL [RE.lit "non", RE.rep notAlpha 0 none true, RE.lit "disclosure"], "NDA"),
    (seqL [RE.lit "loan", wsPlus, RE.lit "agreement"], "Loan Agreement") ]

def findType : List (RE × String) → String → String
  | [], _ => "Service Agreement"
  | (p, t) :: rest, text => if reTest true p text then t else findType rest text

def extractContractType (text : String) : String := findType typePatterns text

/-- `/(?:between|by and between)\s+([^,]+)\s+(?:and|AND)\s+([^,.\n]+)/i` -/
def partiesP1 : RE :=
  seqL [altL [RE.lit "between", RE.lit "by and between"], wsPlus,
        RE.grp (RE.rep notComma 1 none true), wsPlus,
        altL [RE.lit "and", RE.lit "AND"], wsPlus,
        RE.grp (RE.rep notCommaDotNl 1 none true)]

/-- `/(?:party|Party)\s+(?:first|1st)\s*[:=]?\s*([^,.\n]+)/i` -/
def partiesP2 : RE :=
  seqL [altL [RE.lit "party", RE.lit "Party"], wsPlus,
        altL [RE.lit "first", RE.lit "1st"], wsStar, optColonEq, wsStar,
        RE.grp (RE.rep notCommaDotNl 1 none true)]

/-- `/(?:party|Party)\s+(?:second|2nd)\s*[:=]?\s*([^,.\n]+)/i` -/
def partiesP3 : RE :=
  seqL [altL [RE.lit "party", RE.lit "Party"], wsPlus,
        altL [RE.lit "second", RE.lit "2nd"], wsStar, optColonEq, wsStar,
        RE.grp (RE.rep notCommaDotNl 1 none true)]

def partyPatterns : List RE := [partiesP1, partiesP2, partiesP3]

def collectParties : List RE → String → List String
  | [], _ => []
  | p :: rest, text =>
    (match jsMatch true p text with
     | some (_, caps) => (caps.map strTrim).filter (fun s => s.length > 0)
     | none => []) ++ collectParties rest text

def extractParties (text : String) : List String :=
  dedupFirst (collectParties partyPatterns text)

/-- `/(?:payment|amount)\s*[:=]?\s*(?:\$|USD|EUR|USDC)?\s*([0-9,]+(?:\.[0-9]{2})?)\s*([A-Z]{0,4})?/i` -/
def paymentP1 : RE :=
  seqL [altL [RE.lit "payment", RE.lit "amount"], wsStar, optColonEq, wsStar,
        optRE (altL [RE.lit "$", RE.lit "USD", RE.lit "EUR", RE.lit "USDC"]), wsStar,
        RE.grp (seqL [RE.rep digitOrComma 1 none true,
                      optRE (seqL [RE.lit ".", RE.rep isDigitCh 2 (some 2) true])]),
        wsStar, optRE (RE.grp (RE.rep alphaCI 0 (some 4) true))]

/-- `/(\$?[0-9,]+(?:\.[0-9]{2})?)\s+(?:USD|EUR|USDC|dollars|euros)/i` -/
def paymentP2 : RE :=
  seqL [RE.grp (seqL [optRE (RE.lit "$"), RE.rep digitOrComma 1 none true,
                      optRE (seqL [RE.lit ".", RE.rep isDigitCh 2 (some 2) true])]),
        wsPlus, altL [RE.lit "USD", RE.lit "EUR", RE.lit "USDC",
                      RE.lit "dollars", RE.lit "euros"]]

/-- Return the first pattern's whole match (trimmed), as `extractPaymentTerms`
does with `match[0].trim()`. -/
def firstWhole : List RE → String → Option String
  | [], _ => none
  | p :: rest, text =>
    match jsMatch true p text with
    | some (whole, _) => some (strTrim whole)
    | none => firstWhole rest text

def extractPaymentTerms (text : String) : Option String :=
  firstWhole [paymentP1, paymentP2] text

/-- Return the first pattern's first capture (trimmed), shared by the
extractors that use `match[1].trim()`. -/
def firstCapture : List RE → String → Option String
  | [], _ => none
  | p :: rest, text =>
    match jsMatch true p text with
    | some (_, caps) =>
      match caps.head? with
      | some g => some (strTrim g)
      | none => none
    | none => firstCapture rest text

/-- `/(?:duration|term|period|for)\s+(?:a\s+)?([0-9]+\s+(?:days?|weeks?|months?|years?))/i` -/
def durationP : RE :=
  seqL [altL [RE.lit "duration", RE.lit "term", RE.lit "period", RE.lit "for"], wsPlus,
        optRE (seqL [RE.lit "a", wsPlus]),
        RE.grp (seqL [RE.rep isDigitCh 1 none true, wsPlus,
                      altL [seqL [RE.lit "day", optRE (RE.lit "s")],
                            seqL [RE.lit "week", optRE (RE.lit "s")],
                            seqL [RE.lit "month", optRE (RE.lit "s")],
                            seqL [RE.lit "year", optRE (RE.lit "s")]]])]

def extractDuration (text : String) : Option String :=
  firstCapture [durationP] text

/-- `/(?:upon|after|on)\s+([^,.\n]*?(?:delivery|completion|signing|receipt|acceptance))/i` -/
def triggerP1 : RE :=
  seqL [altL [RE.lit "upon", RE.lit "after", RE.lit "on"], wsPlus,
        RE.grp (seqL [RE.rep notCommaDotNl 0 none false,
                      altL [RE.lit "delivery", RE.lit "completion", RE.lit "signing",
                            RE.lit "receipt", RE.lit "acceptance"]])]

/-- `/(?:payment\s+)?(?:trigger|condition)\s*[:=]?\s*([^,.\n]+)/i` -/
def triggerP2 : RE :=
  seqL [optRE (seqL [RE.lit "payment", wsPlus]),
        altL [RE.lit "trigger", RE.lit "condition"], wsStar, optColonEq, wsStar,
        RE.grp (RE.rep notCommaDotNl 1 none true)]

def extractTrigger (text : String) : Option String :=
  firstCapture [triggerP1, triggerP2] text

/-- `/(?:start|commence)(?:ment|ing)?\s+(?:date)?\s*[:=]?\s*([^,.\n]+)/i` -/
def startDateP : RE :=
  seqL [altL [RE.lit "start", RE.lit "commence"],
        optRE (altL [RE.lit "ment", RE.lit "ing"]), wsPlus,
        optRE (RE.lit "date"), wsStar, optColonEq, wsStar,
        RE.grp (RE.rep notCommaDotNl 1 none true)]

def extractStartDate (text : String) : Option String :=
  firstCapture [startDateP] text

/-- `/(?:end|expiration|expires?|termination|completion)\s+(?:date)?\s*[:=]?\s*([^,.\n]+)/i` -/
def endDateP : RE :=
  seqL [altL [RE.lit "end", RE.lit "expiration",
              seqL [RE.lit "expire", optRE (RE.lit "s")],
              RE.lit "termination", RE.lit "completion"], wsPlus,
        optRE (RE.lit "date"), wsStar, optColonEq, wsStar,
        RE.grp (RE.rep notCommaDotNl 1 none true)]

def extractEndDate (text : String) : Option String :=
  firstCapture [endDateP] text

/-- `/(?:shall|must|required to|agrees to)\s+([^,.\n]{10,150})/gi` -/
def obligationsP1 : RE :=
  seqL [altL [RE.lit "shall", RE.lit "must", RE.lit "required to", RE.lit "agrees to"],
        wsPlus, RE.grp (RE.rep notCommaDotNl 10 (some 150) true)]

/-- `/(?:obligation|duty|responsibility)\s*[:=]?\s*([^,.\n]{10,150})/gi` -/
def obligationsP2 : RE :=
  seqL [altL [RE.lit "obligation", RE.lit "duty", RE.lit "responsibility"],
        wsStar, optColonEq, wsStar,
        RE.grp (RE.rep notCommaDotNl 10 (some 150) true)]

/-- The `exec` loop body: keep `match[1].trim()` when its length is in the
open window `(10, 200)`. -/
def collectObligations (ms : List (String × List String)) : List String :=
  ms.foldl (fun acc m =>
    match m.2.head? with
    | some g =>
      let ob := strTrim g
      if ob.length > 10 ∧ ob.length < 200 then acc ++ [ob] else acc
    | none => acc) []

def extractObligations (text : String) : List String :=
  (dedupFirst (collectObligations (jsMatchAll true obligationsP1 text) ++
               collectObligations (jsMatchAll true obligationsP2 text))).take 5

/-- `createSummary`: deterministic concatenation of type, parties, payment
and duration segments. -/
def createSummary (data : ContractData) : String :=
  let partiesText :=
    if data.parties.length > 0 then " between " ++ String.intercalate ", " data.parties
    else ""
  let paymentText :=
    if truthy data.terms.payment then " - Payment: " ++ jsOr data.terms.payment ""
    else ""
  let durationText :=
    if truthy data.terms.duration then " - Duration: " ++ jsOr data.terms.duration ""
    else ""
  data.type ++ partiesText ++ paymentText ++ durationText

/-- Fallback pattern-based extraction (`extractContractDataWithPatterns`).
Note the source sets `summary: ""` here. -/
def extractContractDataWithPatterns (pdfText : String) : ContractData :=
  let clean := cleanText pdfText
  { type := extractContractType clean,
    parties := extractParties clean,
    terms :=
      { payment := extractPaymentTerms clean,
        duration := extractDuration clean,
        trigger := extractTrigger clean,
        startDate := extractStartDate clean,
        endDate := extractEndDate clean,
        obligations := some (extractObligations clean) },
    summary := "" }

/-- Shape of the value produced by `JSON.parse` on the model response; every
field may be missing. -/
structure ParsedContractData where
  type : Option String
  parties : Option (List String)
  terms : ContractTerms
  summary : Option String
deriving DecidableEq, Repr

/-- Prefix of a list up to and including its last closing brace; `[]` when
there is none. -/
def dropAfterLastClose (l : List Char) : List Char :=
  ((l.reverse.dropWhile (fun c => ¬ (c = Char.ofNat 125))).reverse)

/-- `content.match(/\{[\s\S]*\}/)`: the greedy match runs from the first
opening brace that has some closing brace after it, up to the last closing
brace of the string. -/
def jsonMatchAux : List Char → Option (List Char)
  | [] => none
  | c :: rest =>
    if c = Char.ofNat 123 ∧ rest.contains (Char.ofNat 125) then
      some (c :: dropAfterLastClose rest)
    else jsonMatchAux rest

def jsonObjectMatch (content : String) : Option String :=
  (jsonMatchAux content.data).map String.mk

/-- `extractContractData`: the OpenAI-assisted extractor.  External effects
are parameters: `apiKeySet` models the `OPENAI_API_KEY` check, `llmCall` the
chat-completion call (`.error` = the call threw, `.ok content` = the reply
text after `|| ""`), and `jsonParse` models `JSON.parse` (`none` = it threw,
which the surrounding `try`/`catch` turns into the fallback). -/
def extractContractData (apiKeySet : Bool) (llmCall : Except String String)
    (jsonParse : String → Option ParsedContractData) (pdfText : String) : ContractData :=
  if ¬ apiKeySet then extractContractDataWithPatterns pdfText
  else
    match llmCall with
    | .error _ => extractContractDataWithPatterns pdfText
    | .ok content =>
      match jsonObjectMatch content with
      | none => extractContractDataWithPatterns pdfText
      | some js =>
        match jsonParse js with
        | none => extractContractDataWithPatterns pdfText
        | some parsed =>
          match parsed.type, parsed.parties with
          | some t, some ps =>
            if t = "" ∨ ps = [] then extractContractDataWithPatterns pdfText
            else
              let d : ContractData :=
                { type := t, parties := ps, terms := parsed.terms, summary := "" }
              { d with summary := createSummary d }
          | _, _ => extractContractDataWithPatterns pdfText

end Extractor

namespace Gen

/-! Embedding of `solidityGenerator` (the template-based Solidity code
generator used by the generate route): the Handlebars template, Handlebars
expression escaping, `sanitizeContractName` and `generateSolidityContract`. -/

open Js

/-- The generator input interface (`ContractData` of the generator module:
type, parties and terms; no summary field). -/
structure ContractData where
  type : String
  parties : List String
  terms : Extractor.ContractTerms
deriving DecidableEq, Repr

/-- `name.replace(/[^a-zA-Z0-9]/g, "_")`. -/
def underscoreNonAlnum (l : List Char) : List Char :=
  l.map (fun c => if c.isAlphanum then c else '_')

/-- `replace(/^[0-9]/, "_$&")`: a leading digit gets an underscore prefixed
(the digit itself is kept by `$&`). -/
def prefixLeadingDigit : List Char → List Char
  | [] => []
  | c :: rest => if c.isDigit then '_' :: c :: rest else c :: rest

/-- `replace(/_+/g, "_")`: collapse each maximal underscore run to one. -/
def collapseUsAux : Bool → List Char → List Char
  | _, [] => []
  | inRun, c :: rest =>
    if c = '_' then
      if inRun then collapseUsAux true rest
      else '_' :: collapseUsAux true rest
    else c :: collapseUsAux false rest

/-- `sanitizeContractName`: underscore non-alphanumerics, guard a leading
digit, collapse underscore runs, truncate to 100 characters. -/
def sanitizeContractName (name : String) : String :=
  String.mk ((collapseUsAux false (prefixLeadingDigit (underscoreNonAlnum name.data))).take 100)

/-- Handlebars `Utils.escapeExpression`, applied by every `{{...}}`
moustache: HTML entity escaping of the seven characters in
`/[&<>"'`=]/g`.  Newlines and all other characters pass through. -/
def escapeChar (c : Char) : String :=
  if c = '&' then "&amp;"
  else if c = '<' then "&lt;"
  else if c = '>' then "&gt;"
  else if c = '"' then "&quot;"
  else if c = Char.ofNat 39 then "&#x27;"
  else if c = Char.ofNat 96 then "&#x60;"
  else if c = '=' then "&#x3D;"
  else String.singleton c

def escapeExpression (s : String) : String :=
  String.join (s.data.map escapeChar)

/-- The placeholder names appearing in the template. -/
inductive PH where
  | contractName | description | timestamp | paymentTerms
  | duration | trigger | obligations
deriving DecidableEq, Repr

/-- A compiled template is an alternation of literal chunks and
placeholders. -/
inductive Seg where
  | lit : String → Seg
  | ph : PH → Seg

/-- The `templateContext` object built by `generateSolidityContract`
(`amount` and `parties` are part of the context but unused by this
template). -/
structure TemplateContext where
  contractName : String
  description : String
  parties : List String
  paymentTerms : String
  duration : String
  trigger : String
  amount : String
  obligations : String
  timestamp : String

def phValue (ctx : TemplateContext) : PH → String
  | .contractName => ctx.contractName
  | .description => ctx.description
  | .timestamp => ctx.timestamp
  | .paymentTerms => ctx.paymentTerms
  | .duration => ctx.duration
  | .trigger => ctx.trigger
  | .obligations => ctx.obligations

/-- Handlebars rendering: literal chunks verbatim, each `{{x}}` replaced by
the escaped context value. -/
def renderSegs (ctx : TemplateContext) : List Seg → String
  | [] => ""
  | Seg.lit s :: rest => s ++ renderSegs ctx rest
  | Seg.ph p :: rest => escapeExpression (phValue ctx p) ++ renderSegs ctx rest

/-- The Solidity template of `getSolidityTemplate`, split at its `\x7b\x7b...\x7d\x7d` moustaches. -/
def solidityTemplate : List Seg :=
  [ Seg.lit "// SPDX-License-Identifier: MIT\npragma solidity ^0.8.20;\n\n/**\n * @title ",
  Seg.ph PH.contractName,
  Seg.lit "\n * @notice ",
  Seg.ph PH.description,
  Seg.lit "\n * Generated on: ",
  Seg.ph PH.timestamp,
  Seg.lit "\n */\ncontract ",
  Seg.ph PH.contractName,
  Seg.lit " \x7b\n    // Contract parties\n    address[] public parties;\n    \n    // Escrow state\n    mapping(address => uint256) public escrowBalance;\n    uint256 public totalEscrow = 0;\n    \n    // Contract details\n    string public contractType = \"",
  Seg.ph PH.contractName,
  Seg.lit "\";\n    string public description = \"",
  Seg.ph PH.description,
  Seg.lit "\";\n    uint256 public contractStartDate;\n    uint256 public contractEndDate;\n    uint256 public contractExpirationDate; // Auto-expires after 10 days\n    uint256 public constant EXPIRATION_PERIOD = 10 days;\n    string public paymentTerms = \"",
  Seg.ph PH.paymentTerms,
  Seg.lit "\";\n    string public contractDuration = \"",
  Seg.ph PH.duration,
  Seg.lit "\";\n    string public triggerCondition = \"",
  Seg.ph PH.trigger,
  Seg.lit "\";\n    string public obligations = \"",
  Seg.ph PH.obligations,
  Seg.lit "\";\n    \n    // Contract state\n    enum ContractStatus \x7b PENDING, EXECUTED, COMPLETED, EXPIRED \x7d\n    ContractStatus public contractStatus = ContractStatus.PENDING;\n    bool public isExecuted = false;\n    bool public isCompleted = false;\n    \n    // Events\n    event ContractExecuted(uint256 timestamp, address[] parties);\n    event ContractCompleted(uint256 timestamp);\n    event EscrowLocked(address indexed depositor, uint256 amount, uint256 timestamp);\n    event PaymentProcessed(address indexed recipient, uint256 amount, uint256 timestamp);\n    event EscrowReleased(address indexed recipient, uint256 amount, uint256 timestamp);\n    event ContractExpired(uint256 timestamp);\n    event TermsModified(string field, string newValue);\n    \n    // Modifiers\n    modifier onlyParties() \x7b\n        require(isParty(msg.sender), \"Only contract parties can call this\");\n        _;\n    \x7d\n    \n    modifier notExecuted() \x7b\n        require(!isExecuted, \"Contract already executed\");\n        _;\n    \x7d\n    \n    modifier isExecutedCheck() \x7b\n        require(isExecuted, \"Contract not yet executed\");\n        _;\n    \x7d\n    \n    modifier notExpired() \x7b\n        require(block.timestamp <= contractExpirationDate, \"Contract has expired\");\n        _;\n    \x7d\n    \n    /**\n     * @notice Initialize contract with parties and terms\n     * @param _parties Array of party addresses\n     */\n    constructor(address[] memory _parties) \x7b\n        require(_parties.length > 0, \"At least one party required\");\n        parties = _parties;\n        contractStartDate = block.timestamp;\n        contractExpirationDate = block.timestamp + EXPIRATION_PERIOD; // Auto-expire in 10 days\n    \x7d\n    \n    /**\n     * @notice Deposit funds into escrow\n     */\n    function depositToEscrow() public payable onlyParties notExpired \x7b\n        require(msg.value > 0, \"Deposit amount must be greater than 0\");\n        require(contractStatus == ContractStatus.PENDING, \"Can only deposit in PENDING state\");\n        \n        escrowBalance[msg.sender] += msg.value;\n        totalEscrow += msg.value;\n        \n        emit EscrowLocked(msg.sender, msg.value, block.timestamp);\n    \x7d\n    \n    /**\n     * @notice Get escrow balance for an address\n     */\n    function getEscrowBalance(address _address) public view returns (uint256) \x7b\n        return escrowBalance[_address];\n    \x7d\n    \n    /**\n     * @notice Execute the contract and lock funds\n     */\n    function executeContract() public onlyParties notExecuted notExpired \x7b\n        require(totalEscrow > 0, \"Escrow must have funds before execution\");\n        isExecuted = true;\n        contractStatus = ContractStatus.EXECUTED;\n        emit ContractExecuted(block.timestamp, parties);\n    \x7d\n    \n    /**\n     * @notice Mark contract as completed and release escrow\n     */\n    function completeContract() public onlyParties isExecutedCheck notExpired \x7b\n        require(!isCompleted, \"Contract already completed\");\n        require(contractStatus == ContractStatus.EXECUTED, \"Contract must be executed first\");\n        \n        isCompleted = true;\n        contractStatus = ContractStatus.COMPLETED;\n        emit ContractCompleted(block.timestamp);\n    \x7d\n    \n    /**\n     * @notice Release escrow funds to recipient on trigger/completion\n     * Trigger Condition: ",
  Seg.ph PH.trigger,
  Seg.lit "\n     * Payment Terms: ",
  Seg.ph PH.paymentTerms,
  Seg.lit "\n     * @param recipient Address to receive escrow funds\n     */\n    function releaseEscrow(address payable recipient) public onlyParties isExecutedCheck notExpired \x7b\n        require(isParty(recipient), \"Recipient must be a contract party\");\n        require(isCompleted, \"Contract must be completed to release escrow\");\n        require(escrowBalance[recipient] > 0, \"No escrow balance for recipient\");\n        \n        uint256 amount = escrowBalance[recipient];\n        escrowBalance[recipient] = 0;\n        totalEscrow -= amount;\n        \n        recipient.transfer(amount);\n        emit EscrowReleased(recipient, amount, block.timestamp);\n    \x7d\n    \n    /**\n     * @notice Process payment according to contract terms\n     * @param recipient Address to receive payment\n     */\n    function processPayment(address payable recipient) public payable isExecutedCheck notExpired \x7b\n        require(msg.value > 0, \"Payment amount must be greater than 0\");\n        require(isParty(recipient), \"Recipient must be a contract party\");\n        \n        recipient.transfer(msg.value);\n        emit PaymentProcessed(recipient, msg.value, block.timestamp);\n    \x7d\n    \n    /**\n     * @notice Handle contract expiration after 10 days\n     */\n    function expireContract() public \x7b\n        require(block.timestamp > contractExpirationDate, \"Contract has not expired yet\");\n        require(contractStatus != ContractStatus.EXPIRED, \"Contract already marked as expired\");\n        \n        contractStatus = ContractStatus.EXPIRED;\n        \n        // Return all escrowed funds to depositors\n        for (uint256 i = 0; i < parties.length; i++) \x7b\n            if (escrowBalance[parties[i]] > 0) \x7b\n                uint256 amount = escrowBalance[parties[i]];\n                escrowBalance[parties[i]] = 0;\n                payable(parties[i]).transfer(amount);\n            \x7d\n        \x7d\n        \n        totalEscrow = 0;\n        emit ContractExpired(block.timestamp);\n    \x7d\n    \n    /**\n     * @notice Check if address is a contract party\n     * @param _address Address to check\n     * @return Boolean indicating if address is a party\n     */\n    function isParty(address _address) public view returns (bool) \x7b\n        for (uint256 i = 0; i < parties.length; i++) \x7b\n            if (parties[i] == _address) \x7b\n                return true;\n            \x7d\n        \x7d\n        return false;\n    \x7d\n    \n    /**\n     * @notice Get all contract parties\n     * @return Array of party addresses\n     */\n    function getParties() public view returns (address[] memory) \x7b\n        return parties;\n    \x7d\n    \n    /**\n     * @notice Get contract status\n     */\n    function getStatus() public view returns (string memory) \x7b\n        if (block.timestamp > contractExpirationDate) \x7b\n            return \"EXPIRED\";\n        \x7d else if (isCompleted) \x7b\n            return \"COMPLETED\";\n        \x7d else if (isExecuted) \x7b\n            return \"ACTIVE\";\n        \x7d else \x7b\n            return \"PENDING\";\n        \x7d\n    \x7d\n    \n    /**\n     * @notice Get contract details\n     */\n    function getDetails() public view returns (\n        string memory _type,\n        address[] memory _parties,\n        uint256 _startDate,\n        uint256 _expirationDate,\n        bool _executed,\n        bool _completed,\n        uint256 _totalEscrow\n    ) \x7b\n        return (\n            contractType,\n            parties,\n            contractStartDate,\n            contractExpirationDate,\n            isExecuted,\n            isCompleted,\n            totalEscrow\n        );\n    \x7d\n    \n    /**\n     * @notice Get contract terms\n     */\n    function getTerms() public view returns (\n        string memory _paymentTerms,\n        string memory _duration,\n        string memory _trigger,\n        string memory _obligations\n    ) \x7b\n        return (paymentTerms, contractDuration, triggerCondition, obligations);\n    \x7d\n    \n    /**\n     * @notice Fallback function to receive Ether\n     */\n    receive() external payable \x7b\n        // Allow receiving Ether for contract payments\n    \x7d\n\x7d\n" ]

def templateContext (data : ContractData) (timestamp : String) : TemplateContext :=
  { contractName := sanitizeContractName data.type,
    description := data.type ++ " contract between " ++ String.intercalate ", " data.parties,
    parties := data.parties,
    paymentTerms := jsOr data.terms.payment "Not specified",
    duration := jsOr data.terms.duration "Not specified",
    trigger := jsOr data.terms.trigger "Manual trigger",
    amount := jsOr data.terms.payment "0",
    obligations := String.intercalate "; " (data.terms.obligations.getD []),
    timestamp := timestamp }

/-- `generateSolidityContract`: compile the fixed template and apply it to
the context (the generation timestamp is the one impure input, passed in
explicitly). -/
def generateSolidityContract (data : ContractData) (timestamp : String) : String :=
  renderSegs (templateContext data timestamp) solidityTemplate

end Gen

namespace Js

/-- `String.prototype.startsWith` on character lists. -/
def startsWithChars : List Char → List Char → Bool
  | _, [] => true
  | [], _ :: _ => false
  | c :: cs, p :: ps => c = p && startsWithChars cs ps

def containsChars : List Char → List Char → Bool
  | [], pat => startsWithChars [] pat
  | c :: rest, pat => startsWithChars (c :: rest) pat || containsChars rest pat

/-- `String.prototype.includes`. -/
def strIncludes (s sub : String) : Bool := containsChars s.data sub.data

end Js

namespace Compile

/-! Embedding of `compileSolidityContract` (the compilation adapter around
solc).  The solc call itself is a parameter; its JSON output is modelled by
`SolcOutput`, with `Option` marking fields the source checks for presence. -/

open Js

/-- One diagnostic of `output.errors`. -/
structure SolcError where
  severity : String
  message : String
deriving DecidableEq, Repr

/-- `contract.evm.bytecode`; `object` is the hex string (possibly empty, as
solc emits for abstract contracts and interfaces). -/
structure SolcBytecode where
  object : String
deriving DecidableEq, Repr

structure SolcEvm where
  bytecode : Option SolcBytecode
deriving DecidableEq, Repr

/-- One entry of `output.contracts["Contract.sol"]`; ABI items are kept
opaque (only presence and count matter to the adapter). -/
structure SolcContract where
  abi : Option (List String)
  evm : Option SolcEvm
deriving DecidableEq, Repr

/-- The parsed solc standard-JSON output: optional `errors`, and the
`contracts` object as source-name → (contract-name → contract). -/
structure SolcOutput where
  errors : Option (List SolcError)
  contracts : List (String × List (String × SolcContract))
deriving DecidableEq, Repr

/-- The adapter's `CompilationResult` interface. -/
structure CompilationResult where
  success : Bool
  abi : Option (List String)
  bytecode : Option String
  contractName : Option String
  error : Option String
  warnings : Option (List String)
deriving DecidableEq, Repr

def failedResult (msg : String) : CompilationResult :=
  { success := false, abi := none, bytecode := none, contractName := none,
    error := some msg, warnings := none }

/-- The fixed compilation configuration built for every call. -/
structure SolcInput where
  language : String
  sourceName : String
  content : String
  optimizerEnabled : Bool
  optimizerRuns : Nat
  outputSelection : List String
deriving DecidableEq, Repr

def mkSolcInput (code : String) : SolcInput :=
  { language := "Solidity", sourceName := "Contract.sol", content := code,
    optimizerEnabled := true, optimizerRuns := 200,
    outputSelection := ["abi", "evm.bytecode", "evm.bytecode.object"] }

/-- The part of `compileSolidityContract` from the solc invocation onward:
classify diagnostics, pick the first declared artifact, and require ABI and
bytecode to be present.  `.error msg` is a thrown exception, which the
surrounding `try`/`catch` turns into a failed result carrying the message. -/
def handleSolcOutput : Except String SolcOutput → CompilationResult
  | Except.error msg => failedResult msg
  | Except.ok output =>
    let allErrors := output.errors.getD []
    let errors := allErrors.filter (fun e => e.severity = "error")
    let warnings := allErrors.filter (fun e => e.severity = "warning")
    if ¬ (allErrors = []) ∧ ¬ (errors = []) then
      { success := false, abi := none, bytecode := none, contractName := none,
        error := some ("Compilation failed: " ++
          String.intercalate "; " (errors.map SolcError.message)),
        warnings := some (warnings.map SolcError.message) }
    else
      match output.contracts.lookup "Contract.sol" with
      | none => failedResult "No contracts found in compilation output"
      | some [] => failedResult "No contracts found in compilation output"
      | some ((contractName, contract) :: _) =>
        match contract.abi, contract.evm with
        | some abi, some evm =>
          (match evm.bytecode with
           | some bc =>
             { success := true, abi := some abi, bytecode := some bc.object,
               contractName := some contractName, error := none, warnings := some [] }
           | none => failedResult "Missing ABI or bytecode in compilation output")
        | _, _ => failedResult "Missing ABI or bytecode in compilation output"

/-- `compileSolidityContract`: the three-step validation gate, then the solc
invocation (`solcCompile` models
`JSON.parse(solc.compile(JSON.stringify(input)))`). -/
def compileSolidityContract (solcCompile : SolcInput → Except String SolcOutput)
    (solidityCode : String) : CompilationResult :=
  if strTrim solidityCode = "" then failedResult "Empty Solidity code provided"
  else if ¬ strIncludes solidityCode "pragma solidity" then
    failedResult "Missing pragma solidity declaration"
  else if ¬ strIncludes solidityCode "contract " then
    failedResult "Missing contract declaration"
  else handleSolcOutput (solcCompile (mkSolcInput solidityCode))

end Compile

namespace Deploy

/-! Embedding of `deployContractToBlockchain` (the deployment router of
`blockchainDeployment`).  The two network strategies are parameters: the
router only selects between them. -/

/-- The router's `DeploymentResult` interface. -/
structure DeploymentResult where
  success : Bool
  contractAddress : Option String
  transactionHash : Option String
  blockNumber : Option Nat
  gasUsed : Option String
  error : Option String
  network : Option String
deriving DecidableEq, Repr

/-- `deployContractToBlockchain`: a `switch` on `blockchain.toLowerCase()`
with no default strategy. -/
def deployContractToBlockchain
    (deployToEthereumSepolia deployToPolygonMumbai : String → List String → DeploymentResult)
    (solidityCode : String) (blockchain : String) (constructorArgs : List String) :
    DeploymentResult :=
  if Js.toLowerStr blockchain = "ethereum" then deployToEthereumSepolia solidityCode constructorArgs
  else if Js.toLowerStr blockchain = "polygon" then deployToPolygonMumbai solidityCode constructorArgs
  else
    { success := false, contractAddress := none, transactionHash := none,
      blockNumber := none, gasUsed := none,
      error := some ("Unknown blockchain: " ++ blockchain ++
        ". Use \x27ethereum\x27 or \x27polygon\x27"),
      network := none }

end Deploy

namespace Mock

/-! Embedding of the mock deployment service (`blockchainDeployment` used by
the upload route): random draws are a parameter `rand`, one `Fin 16` per
`Math.floor(Math.random() * 16)` evaluation, numbered in evaluation order
(40 for the address, then 64 for the transaction hash). -/

/-- The mock service's `DeploymentResult` interface: no failure variant. -/
structure DeploymentResult where
  address : String
  transactionHash : String
deriving DecidableEq, Repr

/-- `Math.floor(Math.random() * 16).toString(16)`. -/
def hexDigitChar (n : Fin 16) : Char :=
  if n.val < 10 then Char.ofNat (48 + n.val) else Char.ofNat (87 + n.val)

/-- `deployContract`: mock address and transaction hash from random hex
digits. -/
def deployContract (rand : Nat → Fin 16) (solidityCode : String) (blockchain : String) :
    DeploymentResult :=
  { address := "0x" ++ String.mk ((List.range 40).map (fun i => hexDigitChar (rand i))),
    transactionHash :=
      "0x" ++ String.mk ((List.range 64).map (fun i => hexDigitChar (rand (40 + i)))) }

end Mock

namespace Routes

/-! Embedding of the request handlers that touch persisted records: the
deploy route, the generate route, and the upload route.  The database is
explicit state (`ConversionDb`); a handler returns its HTTP status together
with the records it created and the state after its updates.  `res.json`
payloads, logging and the uploaded temporary file are outside the claims
and are not modelled. -/

open Js

/-- `ConversionStatus` enum of the schema. -/
inductive ConversionStatus where
  | UPLOADING | PARSING | EXTRACTING | GENERATING | DEPLOYING | COMPLETED | FAILED
deriving DecidableEq, Repr

/-- `ProcessingStep` enum of the schema. -/
inductive ProcessingStep where
  | UPLOAD | PARSE_PDF | EXTRACT_DATA | GENERATE_CONTRACT | DEPLOY | COMPLETED
deriving DecidableEq, Repr

/-- A persisted conversion row (the fields the handlers read or write). -/
structure ConversionRecord where
  userId : String
  originalFileName : String
  status : ConversionStatus
  processingStep : ProcessingStep
  contractType : Option String
  errorMessage : Option String
deriving DecidableEq, Repr

/-- The conversions table, keyed by id. -/
def ConversionDb : Type := String → Option ConversionRecord

/-- `prisma.conversion.update({ where: { id }, data })` on an existing row. -/
def updateConversion (db : ConversionDb) (id : String)
    (f : ConversionRecord → ConversionRecord) : ConversionDb :=
  fun k => if k = id then (db k).map f else db k

/-- A `prisma.deployedContract.create` payload of the deploy route. -/
structure DeployedContractRecord where
  conversionId : String
  contractAddress : String
  blockchain : String
  transactionHash : String
  solidityCode : String
  compiledBytecode : Option String
  gasUsed : Option String
  compilerVersion : String
deriving DecidableEq, Repr

/-- Outcome of one deploy-route request: HTTP status, the new database
state, and the deployment records created. -/
structure DeployRouteResult where
  httpStatus : Nat
  db : ConversionDb
  createdDeployments : List DeployedContractRecord

/-- `POST /api/deploy` (the deploy route handler).  `solcCompile` and the
two strategies parameterize the external compiler and networks, as in
`compileSolidityContract` and `deployContractToBlockchain`.  A
`prisma` write that references a missing conversion throws and is caught,
returning 500 with no database change. -/
def deployPost (solcCompile : Compile.SolcInput → Except String Compile.SolcOutput)
    (ethStrat polyStrat : String → List String → Deploy.DeploymentResult)
    (db : ConversionDb) (solidityCode : String) (blockchain : String)
    (conversionId : Option String) (constructorArgs : List String) : DeployRouteResult :=
  if solidityCode = "" then ⟨400, db, []⟩
  else if ¬ (blockchain = "ethereum" ∨ blockchain = "polygon") then ⟨400, db, []⟩
  else
    let validation := Compile.compileSolidityContract solcCompile solidityCode
    if ¬ validation.success then ⟨400, db, []⟩
    else
      let deploymentResult :=
        Deploy.deployContractToBlockchain ethStrat polyStrat solidityCode blockchain
          constructorArgs
      if ¬ deploymentResult.success then ⟨500, db, []⟩
      else
        match conversionId with
        | none => ⟨400, db, []⟩
        | some cid =>
          match db cid with
          | none => ⟨500, db, []⟩
          | some _ =>
            let created : DeployedContractRecord :=
              { conversionId := cid,
                contractAddress := deploymentResult.contractAddress.getD "",
                blockchain := jsOr (deploymentResult.network.map String.toUpper) "POLYGON",
                transactionHash := deploymentResult.transactionHash.getD "",
                solidityCode := solidityCode,
                compiledBytecode := validation.bytecode,
                gasUsed := deploymentResult.gasUsed,
                compilerVersion := "0.8.20" }
            let dbAfter := updateConversion db cid (fun c =>
              { c with status := ConversionStatus.DEPLOYING,
                       processingStep := ProcessingStep.DEPLOY })
            ⟨200, dbAfter, [created]⟩

/-- Outcome of one generate-route request. -/
structure GenRouteResult where
  httpStatus : Nat
  db : ConversionDb
  contractCode : Option String

/-- `POST /api/generate` (the generate route handler).  `timestamp` is the
generation time passed through to the generator. -/
def generatePost (db : ConversionDb) (conversionId : Option String)
    (contractData : Option Gen.ContractData) (timestamp : String) : GenRouteResult :=
  match contractData with
  | none => ⟨400, db, none⟩
  | some cd =>
    if cd.type = "" ∨ cd.parties = [] then ⟨400, db, none⟩
    else
      let code := Gen.generateSolidityContract cd timestamp
      if truthy conversionId then
        match conversionId with
        | some cid =>
          match db cid with
          | none => ⟨500, db, none⟩
          | some _ =>
            ⟨200, updateConversion db cid (fun c =>
              { c with processingStep := ProcessingStep.GENERATE_CONTRACT }), some code⟩
        | none => ⟨200, db, some code⟩
      else ⟨200, db, some code⟩

/-- The extractor interface the upload route consumes
(`type`/`parties`/`paymentTerms`/`keyTerms` shape). -/
structure ContractDataK where
  type : String
  parties : List String
  paymentTerms : Option String
  keyTerms : List (String × String)
  summary : String
deriving DecidableEq, Repr

/-- The `prisma.conversion.create` payload of the upload route, including
the nested `extractedData.create` child. -/
structure ConversionCreate where
  userId : String
  originalFileName : String
  fileUrl : String
  contractType : String
  status : ConversionStatus
  processingStep : ProcessingStep
  extractedParties : String
  extractedContractType : String
  extractedPaymentAmount : Option String
  extractedKeyTerms : List (String × String)
deriving DecidableEq, Repr

/-- The `prisma.deployedContract.create` payload of the upload route. -/
structure UploadDeployedCreate where
  conversionId : String
  contractAddress : String
  blockchain : String
  transactionHash : String
  solidityCode : String
deriving DecidableEq, Repr

/-- Outcome of one upload-route request (success path): the records
created, the final status/step update, and the mock deployment values
echoed in the response. -/
structure UploadOutcome where
  httpStatus : Nat
  conversionCreate : ConversionCreate
  deployedCreate : Option UploadDeployedCreate
  finalStatus : ConversionStatus × ProcessingStep
  deploymentAddress : Option String
  deploymentTx : Option String
deriving Repr

/-- `contractData.paymentTerms || undefined`. -/
def orUndefined (o : Option String) : Option String :=
  if truthy o then o else none

/-- `POST /api/upload` (the upload route with the deploy step).  The PDF
parser result is `parsedText`; `extract` and `generate` are the imported
collaborators (`extractContractData`, `generateSolidityContract`); `rand`
feeds the mock `deployContract`; `conversionId` is the id the database
assigns to the created conversion. -/
def uploadPost (extract : String → ContractDataK) (generate : ContractDataK → String)
    (rand : Nat → Fin 16) (parsedText : String) (fileName : String)
    (filenameOnDisk : String) (conversionId : String) (blockchain : String)
    (deploy : Bool) (userId : String) : UploadOutcome :=
  let contractData := extract parsedText
  let solidityCode := generate contractData
  let deployment :=
    if deploy then some (Mock.deployContract rand solidityCode (toLowerStr blockchain)) else none
  let deploymentAddress := deployment.map Mock.DeploymentResult.address
  let deploymentTx := deployment.map Mock.DeploymentResult.transactionHash
  let conv : ConversionCreate :=
    { userId := userId,
      originalFileName := fileName,
      fileUrl := "/uploads/" ++ filenameOnDisk,
      contractType := contractData.type,
      status := ConversionStatus.GENERATING,
      processingStep := ProcessingStep.GENERATE_CONTRACT,
      extractedParties := String.intercalate ", " contractData.parties,
      extractedContractType := contractData.type,
      extractedPaymentAmount := orUndefined contractData.paymentTerms,
      extractedKeyTerms := contractData.keyTerms }
  let deployedCreate :=
    if deploy ∧ truthy deploymentAddress ∧ truthy deploymentTx then
      some { conversionId := conversionId,
             contractAddress := deploymentAddress.getD "",
             blockchain := blockchain,
             transactionHash := deploymentTx.getD "",
             solidityCode := solidityCode }
    else none
  { httpStatus := 200,
    conversionCreate := conv,
    deployedCreate := deployedCreate,
    finalStatus := (ConversionStatus.COMPLETED, ProcessingStep.COMPLETED),
    deploymentAddress := deploymentAddress,
    deploymentTx := deploymentTx }

end Routes

namespace Js

/-- A lowercase hex digit, as produced by `Number.prototype.toString(16)`. -/
def isHexLower (c : Char) : Bool := c.isDigit || ('a' ≤ c && c ≤ 'f')

end Js

namespace Fixtures

/-! Concrete collaborator instances used to instantiate the parametrized
handlers in the theorems below. -/

/-- A solc response declaring one artifact with an empty bytecode object, as
solc emits for an abstract contract or interface. -/
def solcOutputEmpty : Compile.SolcOutput :=
  { errors := none,
    contracts := [("Contract.sol",
      [("C", { abi := some [], evm := some { bytecode := some { object := "" } } })])] }

def solcStubEmpty : Compile.SolcInput → Except String Compile.SolcOutput :=
  fun _ => Except.ok solcOutputEmpty

/-- A solc response declaring one artifact with non-empty bytecode. -/
def solcOutputGood : Compile.SolcOutput :=
  { errors := none,
    contracts := [("Contract.sol",
      [("C", { abi := some ["constructor"],
               evm := some { bytecode := some { object := "6001600101" } } })])] }

def solcStubGood : Compile.SolcInput → Except String Compile.SolcOutput :=
  fun _ => Except.ok solcOutputGood

/-- A source text that passes all three validation gates. -/
def validCode : String := "pragma solidity ^0.8.20; contract C"

/-- An always-successful Ethereum strategy result. -/
def ethResult : Deploy.DeploymentResult :=
  { success := true, contractAddress := some "0xeth", transactionHash := some "0xtxe",
    blockNumber := some 1, gasUsed := some "21000", error := none,
    network := some "ETHEREUM" }

/-- An always-successful Polygon strategy result. -/
def polyResult : Deploy.DeploymentResult :=
  { success := true, contractAddress := some "0xpoly", transactionHash := some "0xtxp",
    blockNumber := some 2, gasUsed := some "23000", error := none,
    network := some "POLYGON" }

def ethStub : String → List String → Deploy.DeploymentResult := fun _ _ => ethResult

def polyStub : String → List String → Deploy.DeploymentResult := fun _ _ => polyResult

/-- A conversion that has already reached the terminal status. -/
def completedRecord : Routes.ConversionRecord :=
  { userId := "u1", originalFileName := "contract.pdf",
    status := Routes.ConversionStatus.COMPLETED,
    processingStep := Routes.ProcessingStep.COMPLETED,
    contractType := some "Service Agreement", errorMessage := none }

/-- A database holding exactly the completed conversion under id `c1`. -/
def dbOne : Routes.ConversionDb :=
  fun id => if id = "c1" then some completedRecord else none

/-- Valid generator input for the generate route. -/
def genData : Gen.ContractData :=
  { type := "Service Agreement", parties := ["Acme Corp", "Globex Inc"],
    terms := { payment := none, duration := none, trigger := none,
               startDate := none, endDate := none, obligations := none } }

/-- Generator input whose payment term contains a newline character. -/
def newlineData : Gen.ContractData :=
  { type := "Service Agreement", parties := ["Acme Corp", "Globex Inc"],
    terms := { payment := some "100\nUSDC", duration := none, trigger := none,
               startDate := none, endDate := none, obligations := none } }

end Fixtures

/-- The literal chunk of the template between the description placeholder
and the `paymentTerms` placeholder, minus its final `paymentTerms = "`. -/
def Fixtures.c4ChunkA : String :=
  "\";\n    uint256 public contractStartDate;\n    uint256 public contractEndDate;\n    uint256 public contractExpirationDate; // Auto-expires after 10 days\n    uint256 public constant EXPIRATION_PERIOD = 10 days;\n    string public "

/-- The literal chunk of the template after the `paymentTerms` placeholder,
minus its leading closing quote. -/
def Fixtures.c4ChunkB : String :=
  ";\n    string public contractDuration = \""

/-- A solc response carrying two error diagnostics and one warning. -/
def Fixtures.solcOutputErrors : Compile.SolcOutput :=
  { errors := some [{ severity := "error", message := "boom" },
                    { severity := "warning", message := "meh" },
                    { severity := "error", message := "bam" }],
    contracts := [] }

/-- A parse result with the required fields filled. -/
def Fixtures.parsedGood : Extractor.ParsedContractData :=
  { type := some "NDA", parties := some ["Acme Corp", "Globex Inc"],
    terms := { payment := some "5 USDC", duration := some "2 days", trigger := none,
               startDate := none, endDate := none, obligations := none },
    summary := none }

/-- A parse result whose `type` is the empty string (falsy). -/
def Fixtures.parsedEmptyType : Extractor.ParsedContractData :=
  { type := some "", parties := some ["Acme Corp"],
    terms := { payment := none, duration := none, trigger := none,
               startDate := none, endDate := none, obligations := none },
    summary := none }

/-! ## Helper lemmas -/

/-- Rendering a concatenation of segment lists concatenates the rendered
texts. -/
theorem renderSegs_append (ctx : Gen.TemplateContext) (a b : List Gen.Seg) :
    Gen.renderSegs ctx (a ++ b) = Gen.renderSegs ctx a ++ Gen.renderSegs ctx b := by
  induction a with
  | nil => rw [List.nil_append, Gen.renderSegs, String.empty_append]
  | cons s rest ih =>
    cases s with
    | lit t => rw [List.cons_append, Gen.renderSegs, Gen.renderSegs, ih, String.append_assoc]
    | ph p => rw [List.cons_append, Gen.renderSegs, Gen.renderSegs, ih, String.append_assoc]

/-- A successful `handleSolcOutput` comes from an `ok` solc response whose
first declared artifact supplies the name, ABI and bytecode object. -/
theorem handleSolcOutput_ok (res : Except String Compile.SolcOutput)
    (h : (Compile.handleSolcOutput res).success = true) :
    ∃ out name c rest abi evm bc,
      res = Except.ok out ∧
      out.contracts.lookup "Contract.sol" = some ((name, c) :: rest) ∧
      c.abi = some abi ∧ c.evm = some evm ∧ evm.bytecode = some bc ∧
      Compile.handleSolcOutput res =
        { success := true, abi := some abi, bytecode := some bc.object,
          contractName := some name, error := none, warnings := some [] } := by
  cases res with
  | error msg => simp [Compile.handleSolcOutput, Compile.failedResult] at h
  | ok out =>
    by_cases herr : ¬ (out.errors.getD [] = []) ∧
        ¬ ((out.errors.getD []).filter (fun e => e.severity = "error") = [])
    · simp only [Compile.handleSolcOutput, if_pos herr] at h
      simp at h
    · cases hl : out.contracts.lookup "Contract.sol" with
      | none =>
        simp only [Compile.handleSolcOutput, if_neg herr, hl] at h
        simp [Compile.failedResult] at h
      | some cs =>
        cases cs with
        | nil =>
          simp only [Compile.handleSolcOutput, if_neg herr, hl] at h
          simp [Compile.failedResult] at h
        | cons hd tl =>
          obtain ⟨name, c⟩ := hd
          cases habi : c.abi with
          | none =>
            simp only [Compile.handleSolcOutput, if_neg herr, hl, habi] at h
            simp [Compile.failedResult] at h
          | some abi =>
            cases hevm : c.evm with
            | none =>
              simp only [Compile.handleSolcOutput, if_neg herr, hl, habi, hevm] at h
              simp [Compile.failedResult] at h
            | some evm =>
              cases hbc : evm.bytecode with
              | none =>
                simp only [Compile.handleSolcOutput, if_neg herr, hl, habi, hevm, hbc] at h
                simp [Compile.failedResult] at h
              | some bc =>
                exact ⟨out, name, c, tl, abi, evm, bc, rfl, hl, habi, hevm, hbc, by
                  simp only [Compile.handleSolcOutput, if_neg herr, hl, habi, hevm, hbc]⟩

/-- Every mock digit is a lowercase hex character. -/
theorem hex_of_digit : ∀ n : Fin 16, Js.isHexLower (Mock.hexDigitChar n) = true := by decide

/-- A `0x`-prefixed string is never empty. -/
theorem append0x_ne (t : String) : ("0x" ++ t) ≠ "" := by
  intro h
  have h2 := congrArg String.length h
  rw [String.length_append] at h2
  have e1 : ("0x" : String).length = 2 := rfl
  have e2 : ("" : String).length = 0 := rfl
  rw [e1, e2] at h2
  omega

/-! ## Claim theorems -/

/-- Claim C1 (code bug): the claim says that once a conversion is COMPLETED
or FAILED no handler mutates it, but evaluating the handlers on a database
whose conversion `c1` is COMPLETED shows the deploy handler rewrites it to
(DEPLOYING, DEPLOY) and the generate handler rewrites its step to
GENERATE_CONTRACT: neither checks the current status before updating. -/
theorem C1_terminal_record_mutated :
    (Fixtures.dbOne "c1" = some Fixtures.completedRecord ∧
     Fixtures.completedRecord.status = Routes.ConversionStatus.COMPLETED ∧
     Fixtures.completedRecord.processingStep = Routes.ProcessingStep.COMPLETED) ∧
    ((Routes.deployPost Fixtures.solcStubGood Fixtures.ethStub Fixtures.polyStub
        Fixtures.dbOne Fixtures.validCode "ethereum" (some "c1") []).db "c1").map
        Routes.ConversionRecord.status = some Routes.ConversionStatus.DEPLOYING ∧
    ((Routes.deployPost Fixtures.solcStubGood Fixtures.ethStub Fixtures.polyStub
        Fixtures.dbOne Fixtures.validCode "ethereum" (some "c1") []).db "c1").map
        Routes.ConversionRecord.processingStep = some Routes.ProcessingStep.DEPLOY ∧
    ((Routes.generatePost Fixtures.dbOne (some "c1") (some Fixtures.genData) "TS").db
        "c1").map Routes.ConversionRecord.processingStep =
      some Routes.ProcessingStep.GENERATE_CONTRACT := by
  refine ⟨⟨rfl, rfl, rfl⟩, ?_, ?_, ?_⟩ <;> decide

/-- Claim C2, counterexample: on the fixture text the extractor does not
return `["Acme Corp", "Globex Inc."]` — the second capture's character
class `[^,.\n]` cannot include the trailing period. -/
theorem C2_parties_fixture_counterexample :
    Extractor.extractParties
      (Js.cleanText "This Agreement is between Acme Corp and Globex Inc.") ≠
      ["Acme Corp", "Globex Inc."] := by decide

/-- Claim C2, amended: on the fixture text the extractor returns exactly
`["Acme Corp", "Globex Inc"]` (second entry without the trailing period),
in order, deduplicated. -/
theorem C2_parties_fixture_amended :
    Extractor.extractParties
      (Js.cleanText "This Agreement is between Acme Corp and Globex Inc.") =
      ["Acme Corp", "Globex Inc"] := by decide

/-- Claim C3, counterexample: `sanitizeContractName "3 Party NDA!!"` does
not match `^_3_Party_NDA$` — the trailing `!!` becomes `__`, which the
collapse pass reduces to a single `_` but does not remove. -/
theorem C3_sanitize_fixture_counterexample :
    Gen.sanitizeContractName "3 Party NDA!!" ≠ "_3_Party_NDA" := by decide

/-- Claim C3, amended: the sanitized fixture is `"_3_Party_NDA_"` (one
trailing underscore kept), and for every input the result has length at
most 100. -/
theorem C3_sanitize_fixture_amended :
    Gen.sanitizeContractName "3 Party NDA!!" = "_3_Party_NDA_" ∧
    ∀ s : String, (Gen.sanitizeContractName s).length ≤ 100 := by
  refine ⟨by decide, ?_⟩
  intro s
  have h : (Gen.sanitizeContractName s).length =
      ((Gen.collapseUsAux false (Gen.prefixLeadingDigit
        (Gen.underscoreNonAlnum s.data))).take 100).length := rfl
  rw [h, List.length_take]
  exact Nat.min_le_left _ _

set_option maxRecDepth 4000 in
/-- Claim C4 (code bug): the claim/spec require every interpolated term to
be escaped for Solidity string-literal syntax, but the generator only
applies Handlebars HTML-entity escaping, which passes newlines through
unchanged: for a payment term containing a newline the generated artifact
contains `paymentTerms = "100\nUSDC"` with a raw newline inside the quoted
string literal, breaking the enclosing literal. -/
theorem C4_unescaped_newline_in_generated_literal :
    ∃ pre post, Gen.generateSolidityContract Fixtures.newlineData "TS" =
      pre ++ "paymentTerms = \"100\nUSDC\"" ++ post := by
  have e1 : Gen.solidityTemplate =
      Gen.solidityTemplate.take 12 ++
      (Gen.Seg.lit (Fixtures.c4ChunkA ++ "paymentTerms = \"") ::
       Gen.Seg.ph Gen.PH.paymentTerms ::
       Gen.Seg.lit ("\"" ++ Fixtures.c4ChunkB) ::
       Gen.solidityTemplate.drop 15) := by
    rfl
  have hV : Gen.escapeExpression
      (Gen.phValue (Gen.templateContext Fixtures.newlineData "TS") Gen.PH.paymentTerms) =
      "100\nUSDC" := by rfl
  have hN : ("paymentTerms = \"" : String) ++ ("100\nUSDC" ++ "\"") =
      "paymentTerms = \"100\nUSDC\"" := by rfl
  refine ⟨Gen.renderSegs (Gen.templateContext Fixtures.newlineData "TS")
            (Gen.solidityTemplate.take 12) ++ Fixtures.c4ChunkA,
          Fixtures.c4ChunkB ++ Gen.renderSegs (Gen.templateContext Fixtures.newlineData "TS")
            (Gen.solidityTemplate.drop 15), ?_⟩
  calc Gen.generateSolidityContract Fixtures.newlineData "TS"
      = Gen.renderSegs (Gen.templateContext Fixtures.newlineData "TS")
          Gen.solidityTemplate := rfl
    _ = Gen.renderSegs (Gen.templateContext Fixtures.newlineData "TS")
          (Gen.solidityTemplate.take 12) ++
        Gen.renderSegs (Gen.templateContext Fixtures.newlineData "TS")
          (Gen.Seg.lit (Fixtures.c4ChunkA ++ "paymentTerms = \"") ::
           Gen.Seg.ph Gen.PH.paymentTerms ::
           Gen.Seg.lit ("\"" ++ Fixtures.c4ChunkB) ::
           Gen.solidityTemplate.drop 15) := by
        conv_lhs => rw [e1]
        rw [renderSegs_append]
    _ = Gen.renderSegs (Gen.templateContext Fixtures.newlineData "TS")
          (Gen.solidityTemplate.take 12) ++
        ((Fixtures.c4ChunkA ++ "paymentTerms = \"") ++
         (Gen.escapeExpression
            (Gen.phValue (Gen.templateContext Fixtures.newlineData "TS")
              Gen.PH.paymentTerms) ++
          (("\"" ++ Fixtures.c4ChunkB) ++
           Gen.renderSegs (Gen.templateContext Fixtures.newlineData "TS")
             (Gen.solidityTemplate.drop 15)))) := by
        rw [Gen.renderSegs, Gen.renderSegs, Gen.renderSegs]
    _ = (Gen.renderSegs (Gen.templateContext Fixtures.newlineData "TS")
           (Gen.solidityTemplate.take 12) ++ Fixtures.c4ChunkA) ++
        "paymentTerms = \"100\nUSDC\"" ++
        (Fixtures.c4ChunkB ++ Gen.renderSegs (Gen.templateContext Fixtures.newlineData "TS")
           (Gen.solidityTemplate.drop 15)) := by
        rw [hV, ← hN]
        simp only [String.append_assoc]

/-- Claim C5: the assisted extractor absorbs every failure mode — service
unconfigured, thrown call, no JSON-object substring in the reply, parse
failure, missing `type`/`parties`, empty (falsy) `type` or empty `parties`
list — and in each case returns exactly the pattern-based fallback result,
with the assisted attempt discarded (the function is total, so no error
ever reaches the caller). -/
theorem C5_assisted_extractor_fallback (pdf : String)
    (parse : String → Option Extractor.ParsedContractData) :
    (∀ call, Extractor.extractContractData false call parse pdf =
      Extractor.extractContractDataWithPatterns pdf) ∧
    (∀ e, Extractor.extractContractData true (Except.error e) parse pdf =
      Extractor.extractContractDataWithPatterns pdf) ∧
    (∀ content, Extractor.jsonObjectMatch content = none →
      Extractor.extractContractData true (Except.ok content) parse pdf =
      Extractor.extractContractDataWithPatterns pdf) ∧
    (∀ content js, Extractor.jsonObjectMatch content = some js → parse js = none →
      Extractor.extractContractData true (Except.ok content) parse pdf =
      Extractor.extractContractDataWithPatterns pdf) ∧
    (∀ content js p, Extractor.jsonObjectMatch content = some js → parse js = some p →
      (p.type = none ∨ p.parties = none) →
      Extractor.extractContractData true (Except.ok content) parse pdf =
      Extractor.extractContractDataWithPatterns pdf) ∧
    (∀ content js p t ps, Extractor.jsonObjectMatch content = some js → parse js = some p →
      p.type = some t → p.parties = some ps → (t = "" ∨ ps = []) →
      Extractor.extractContractData true (Except.ok content) parse pdf =
      Extractor.extractContractDataWithPatterns pdf) := by
  refine ⟨?_, ?_, ?_, ?_, ?_, ?_⟩
  · intro call; simp [Extractor.extractContractData]
  · intro e; simp [Extractor.extractContractData]
  · intro content h; simp [Extractor.extractContractData, h]
  · intro content js h hp; simp [Extractor.extractContractData, h, hp]
  · intro content js p h hp hbad
    obtain ⟨pt, pp, pterms, psum⟩ := p
    rcases hbad with h1 | h1 <;> simp_all [Extractor.extractContractData, h, hp]
  · intro content js p t ps h hp ht hps hbad
    obtain ⟨pt, pp, pterms, psum⟩ := p
    simp_all [Extractor.extractContractData, h, hp]

/-- Witness for C5 at concrete inputs: the unconfigured, thrown, no-JSON,
parse-failure and falsy-type cases each evaluate to the pattern result. -/
theorem C5_assisted_extractor_fallback_witness :
    (Extractor.extractContractData false (Except.ok "irrelevant") (fun _ => none) "doc" =
      Extractor.extractContractDataWithPatterns "doc") ∧
    (Extractor.extractContractData true (Except.error "timeout") (fun _ => none) "doc" =
      Extractor.extractContractDataWithPatterns "doc") ∧
    (Extractor.extractContractData true (Except.ok "no json here") (fun _ => none) "doc" =
      Extractor.extractContractDataWithPatterns "doc") ∧
    (Extractor.extractContractData true (Except.ok "\x7b\x7d") (fun _ => none) "doc" =
      Extractor.extractContractDataWithPatterns "doc") ∧
    (Extractor.extractContractData true (Except.ok "\x7b\x7d")
      (fun _ => some Fixtures.parsedEmptyType) "doc" =
      Extractor.extractContractDataWithPatterns "doc") :=
  ⟨(C5_assisted_extractor_fallback "doc" (fun _ => none)).1 (Except.ok "irrelevant"),
   (C5_assisted_extractor_fallback "doc" (fun _ => none)).2.1 "timeout",
   (C5_assisted_extractor_fallback "doc" (fun _ => none)).2.2.1 "no json here" rfl,
   (C5_assisted_extractor_fallback "doc" (fun _ => none)).2.2.2.1 "\x7b\x7d" "\x7b\x7d"
     rfl rfl,
   (C5_assisted_extractor_fallback "doc" (fun _ => some Fixtures.parsedEmptyType)).2.2.2.2.2
     "\x7b\x7d" "\x7b\x7d" Fixtures.parsedEmptyType "" ["Acme Corp"] rfl rfl rfl rfl
     (Or.inl rfl)⟩

/-- Claim C6: the validation gate is checked in order with short-circuiting
— empty-after-trim, then missing pragma marker, then missing contract
keyword, each yielding the corresponding failure with the compiler not
invoked (the result is the same for any two compiler functions); once all
three pass the result is exactly the handling of the compiler invocation,
and any error-severity diagnostic yields a failure whose reason joins the
error messages and whose warnings collect the warning messages. -/
theorem C6_compile_validation_gate (code : String)
    (f g : Compile.SolcInput → Except String Compile.SolcOutput) :
    (Js.strTrim code = "" →
      Compile.compileSolidityContract f code =
        Compile.failedResult "Empty Solidity code provided") ∧
    (Js.strTrim code ≠ "" → Js.strIncludes code "pragma solidity" = false →
      Compile.compileSolidityContract f code =
        Compile.failedResult "Missing pragma solidity declaration") ∧
    (Js.strTrim code ≠ "" → Js.strIncludes code "pragma solidity" = true →
      Js.strIncludes code "contract " = false →
      Compile.compileSolidityContract f code =
        Compile.failedResult "Missing contract declaration") ∧
    ((Js.strTrim code = "" ∨ Js.strIncludes code "pragma solidity" = false ∨
      Js.strIncludes code "contract " = false) →
      Compile.compileSolidityContract f code = Compile.compileSolidityContract g code) ∧
    (Js.strTrim code ≠ "" → Js.strIncludes code "pragma solidity" = true →
      Js.strIncludes code "contract " = true →
      Compile.compileSolidityContract f code =
        Compile.handleSolcOutput (f (Compile.mkSolcInput code))) ∧
    (∀ out : Compile.SolcOutput,
      (out.errors.getD []).filter (fun e => e.severity = "error") ≠ [] →
      Compile.handleSolcOutput (Except.ok out) =
        { success := false, abi := none, bytecode := none, contractName := none,
          error := some ("Compilation failed: " ++ String.intercalate "; "
            (((out.errors.getD []).filter (fun e => e.severity = "error")).map
              Compile.SolcError.message)),
          warnings := some (((out.errors.getD []).filter
            (fun e => e.severity = "warning")).map Compile.SolcError.message) }) := by
  refine ⟨?_, ?_, ?_, ?_, ?_, ?_⟩
  · intro h; simp [Compile.compileSolidityContract, h]
  · intro h1 h2; simp [Compile.compileSolidityContract, h1, h2]
  · intro h1 h2 h3; simp [Compile.compileSolidityContract, h1, h2, h3]
  · intro h
    rcases h with h | h | h
    · simp [Compile.compileSolidityContract, h]
    · by_cases h1 : Js.strTrim code = "" <;>
        simp [Compile.compileSolidityContract, h, h1]
    · by_cases h1 : Js.strTrim code = "" <;>
        by_cases h2 : Js.strIncludes code "pragma solidity" = true <;>
        simp_all [Compile.compileSolidityContract]
  · intro h1 h2 h3; simp [Compile.compileSolidityContract, h1, h2, h3]
  · intro out h
    have hall : ¬ (out.errors.getD [] = []) := by
      intro he; rw [he] at h; simp at h
    simp [Compile.handleSolcOutput, hall, h]

/-- Witness for C6 at concrete inputs: each gate fires on its fixture and
the diagnostic partition fires on a two-error, one-warning response. -/
theorem C6_compile_validation_gate_witness :
    (Compile.compileSolidityContract Fixtures.solcStubGood "" =
      Compile.failedResult "Empty Solidity code provided") ∧
    (Compile.compileSolidityContract Fixtures.solcStubGood "contract C" =
      Compile.failedResult "Missing pragma solidity declaration") ∧
    (Compile.compileSolidityContract Fixtures.solcStubGood "pragma solidity only" =
      Compile.failedResult "Missing contract declaration") ∧
    (Compile.compileSolidityContract Fixtures.solcStubGood Fixtures.validCode =
      Compile.handleSolcOutput (Fixtures.solcStubGood
        (Compile.mkSolcInput Fixtures.validCode))) ∧
    (Compile.handleSolcOutput (Except.ok Fixtures.solcOutputErrors) =
      { success := false, abi := none, bytecode := none, contractName := none,
        error := some "Compilation failed: boom; bam",
        warnings := some ["meh"] }) :=
  ⟨(C6_compile_validation_gate "" Fixtures.solcStubGood Fixtures.solcStubGood).1 rfl,
   (C6_compile_validation_gate "contract C" Fixtures.solcStubGood
     Fixtures.solcStubGood).2.1 (by decide) (by decide),
   (C6_compile_validation_gate "pragma solidity only" Fixtures.solcStubGood
     Fixtures.solcStubGood).2.2.1 (by decide) (by decide) (by decide),
   (C6_compile_validation_gate Fixtures.validCode Fixtures.solcStubGood
     Fixtures.solcStubGood).2.2.2.2.1 (by decide) (by decide) (by decide),
   by
     have := (C6_compile_validation_gate "" Fixtures.solcStubGood
       Fixtures.solcStubGood).2.2.2.2.2 Fixtures.solcOutputErrors (by decide)
     simpa using this⟩

/-- Claim C7, counterexample: the adapter can return `Ok` with an empty
bytecode — on a gate-passing source and a solc response whose only
declared artifact has bytecode object `""` (as solc emits for an abstract
contract), the result is a success whose bytecode is the empty string. -/
theorem C7_ok_with_empty_bytecode_counterexample :
    (Compile.compileSolidityContract Fixtures.solcStubEmpty Fixtures.validCode).success =
      true ∧
    (Compile.compileSolidityContract Fixtures.solcStubEmpty Fixtures.validCode).bytecode =
      some "" := by decide

/-- Claim C7, amended: a success outcome always carries the name of the
first artifact declared in the compiler's output together with its present
ABI and bytecode object — but the bytecode is only checked for presence,
not for non-emptiness. -/
theorem C7_ok_implies_declared_artifact
    (f : Compile.SolcInput → Except String Compile.SolcOutput) (code : String)
    (h : (Compile.compileSolidityContract f code).success = true) :
    ∃ out name c rest abi evm bc,
      f (Compile.mkSolcInput code) = Except.ok out ∧
      out.contracts.lookup "Contract.sol" = some ((name, c) :: rest) ∧
      c.abi = some abi ∧ c.evm = some evm ∧ evm.bytecode = some bc ∧
      Compile.compileSolidityContract f code =
        { success := true, abi := some abi, bytecode := some bc.object,
          contractName := some name, error := none, warnings := some [] } := by
  by_cases h1 : Js.strTrim code = ""
  · simp [Compile.compileSolidityContract, h1, Compile.failedResult] at h
  by_cases h2 : Js.strIncludes code "pragma solidity" = true
  swap
  · simp [Compile.compileSolidityContract, h1, h2, Compile.failedResult] at h
  by_cases h3 : Js.strIncludes code "contract " = true
  swap
  · simp [Compile.compileSolidityContract, h1, h2, h3, Compile.failedResult] at h
  have hres : Compile.compileSolidityContract f code =
      Compile.handleSolcOutput (f (Compile.mkSolcInput code)) := by
    simp [Compile.compileSolidityContract, h1, h2, h3]
  rw [hres] at h ⊢
  exact handleSolcOutput_ok _ h

/-- Witness for C7 at a concrete compiler stub with non-empty bytecode. -/
theorem C7_ok_implies_declared_artifact_witness :
    ∃ out name c rest abi evm bc,
      Fixtures.solcStubGood (Compile.mkSolcInput Fixtures.validCode) = Except.ok out ∧
      out.contracts.lookup "Contract.sol" = some ((name, c) :: rest) ∧
      c.abi = some abi ∧ c.evm = some evm ∧ evm.bytecode = some bc ∧
      Compile.compileSolidityContract Fixtures.solcStubGood Fixtures.validCode =
        { success := true, abi := some abi, bytecode := some bc.object,
          contractName := some name, error := none, warnings := some [] } :=
  C7_ok_implies_declared_artifact Fixtures.solcStubGood Fixtures.validCode (by decide)

/-- Claim C8: the deployment router is a pure mapping on the lowercased
network name — `ethereum` routes to the Ethereum strategy, `polygon` to the
Polygon strategy, and any other name (in particular `SOLANA`) yields a
failed outcome whose error message names the unsupported network; there is
no default strategy. -/
theorem C8_deployment_router_mapping
    (eth poly : String → List String → Deploy.DeploymentResult)
    (code b : String) (args : List String) :
    (Js.toLowerStr b = "ethereum" →
      Deploy.deployContractToBlockchain eth poly code b args = eth code args) ∧
    (Js.toLowerStr b = "polygon" →
      Deploy.deployContractToBlockchain eth poly code b args = poly code args) ∧
    (Js.toLowerStr b ≠ "ethereum" → Js.toLowerStr b ≠ "polygon" →
      Deploy.deployContractToBlockchain eth poly code b args =
        { success := false, contractAddress := none, transactionHash := none,
          blockNumber := none, gasUsed := none,
          error := some ("Unknown blockchain: " ++ b ++
            ". Use \x27ethereum\x27 or \x27polygon\x27"),
          network := none }) ∧
    (Deploy.deployContractToBlockchain eth poly code "SOLANA" args).error =
      some "Unknown blockchain: SOLANA. Use \x27ethereum\x27 or \x27polygon\x27" ∧
    (Deploy.deployContractToBlockchain eth poly code "SOLANA" args).success = false := by
  refine ⟨?_, ?_, ?_, ?_, ?_⟩
  · intro h; simp [Deploy.deployContractToBlockchain, h]
  · intro h; simp [Deploy.deployContractToBlockchain, h]
  · intro h1 h2; simp [Deploy.deployContractToBlockchain, h1, h2]
  · have h1 : Js.toLowerStr "SOLANA" ≠ "ethereum" := by decide
    have h2 : Js.toLowerStr "SOLANA" ≠ "polygon" := by decide
    simp [Deploy.deployContractToBlockchain, h1, h2]
  · have h1 : Js.toLowerStr "SOLANA" ≠ "ethereum" := by decide
    have h2 : Js.toLowerStr "SOLANA" ≠ "polygon" := by decide
    simp [Deploy.deployContractToBlockchain, h1, h2]

/-- Witness for C8: uppercase `ETHEREUM` and mixed-case `Polygon` route to
the two distinct strategy stubs. -/
theorem C8_deployment_router_mapping_witness :
    (Deploy.deployContractToBlockchain Fixtures.ethStub Fixtures.polyStub
      "code" "ETHEREUM" [] = Fixtures.ethResult) ∧
    (Deploy.deployContractToBlockchain Fixtures.ethStub Fixtures.polyStub
      "code" "Polygon" [] = Fixtures.polyResult) :=
  ⟨(C8_deployment_router_mapping Fixtures.ethStub Fixtures.polyStub "code" "ETHEREUM"
     []).1 (by decide),
   (C8_deployment_router_mapping Fixtures.ethStub Fixtures.polyStub "code" "Polygon"
     []).2.1 (by decide)⟩

/-- Claim C9, counterexample: on the pattern-based path the summary is the
literal empty string, not the deterministic concatenation — the source sets
`summary: ""` in `extractContractDataWithPatterns` — so for the empty
document the summary `""` differs from the concatenation, which starts with
the (always non-empty) contract type. -/
theorem C9_pattern_summary_counterexample :
    (Extractor.extractContractDataWithPatterns "").summary = "" ∧
    Extractor.createSummary (Extractor.extractContractDataWithPatterns "") =
      "Service Agreement" ∧
    (Extractor.extractContractDataWithPatterns "").summary ≠
      Extractor.createSummary (Extractor.extractContractDataWithPatterns "") := by
  refine ⟨rfl, by decide, by decide⟩

/-- Claim C9, amended: the summary equals the deterministic concatenation
(`createSummary` — type, then the party segment, payment segment and
duration segment, each omitted when its source is absent) on the
assisted-success path, where it is recomputed from the returned fields; on
the pattern-based path the summary is the empty string. -/
theorem C9_summary_amended :
    (∀ text, (Extractor.extractContractDataWithPatterns text).summary = "") ∧
    (∀ d : Extractor.ContractData, Extractor.createSummary d =
      d.type ++
      (if d.parties.length > 0 then " between " ++ String.intercalate ", " d.parties
       else "") ++
      (if Js.truthy d.terms.payment then " - Payment: " ++ Js.jsOr d.terms.payment ""
       else "") ++
      (if Js.truthy d.terms.duration then " - Duration: " ++ Js.jsOr d.terms.duration ""
       else "")) ∧
    (∀ content js p t ps (parse : String → Option Extractor.ParsedContractData)
       (pdf : String),
      Extractor.jsonObjectMatch content = some js → parse js = some p →
      p.type = some t → ¬ (t = "") → p.parties = some ps → ¬ (ps = []) →
      (Extractor.extractContractData true (Except.ok content) parse pdf).summary =
        Extractor.createSummary
          (Extractor.extractContractData true (Except.ok content) parse pdf)) := by
  refine ⟨fun text => rfl, fun d => ?_, ?_⟩
  · rw [Extractor.createSummary]
  · intro content js p t ps parse pdf h hp ht htne hps hpsne
    obtain ⟨pt, pp, pterms, psum⟩ := p
    simp_all [Extractor.extractContractData, Extractor.createSummary]

/-- Witness for C9 at a concrete assisted-success input. -/
theorem C9_summary_amended_witness :
    (Extractor.extractContractData true (Except.ok "\x7bx\x7d")
      (fun _ => some Fixtures.parsedGood) "doc").summary =
      Extractor.createSummary (Extractor.extractContractData true (Except.ok "\x7bx\x7d")
        (fun _ => some Fixtures.parsedGood) "doc") :=
  C9_summary_amended.2.2 "\x7bx\x7d" "\x7bx\x7d" Fixtures.parsedGood "NDA"
    ["Acme Corp", "Globex Inc"] (fun _ => some Fixtures.parsedGood) "doc"
    rfl rfl rfl (by decide) rfl (by decide)

/-- Claim C10: the mock deployment service always resolves — its result
type has no failure variant and it is a pure function of the random draws —
with a 42-character `0x`-prefixed lowercase-hex address and a 66-character
`0x`-prefixed lowercase-hex transaction hash; and when the upload route is
asked to deploy, it persists exactly these mock values (address and
transaction hash of the mock deployment of the generated code on the
lowercased network name) in the deployed-contract record it creates. -/
theorem C10_mock_deploy_and_upload_persists (rand : Nat → Fin 16) (code bc : String)
    (extract : String → Routes.ContractDataK) (generate : Routes.ContractDataK → String)
    (text fn fd cid uid : String) :
    ((Mock.deployContract rand code bc).address.length = 42 ∧
     (Mock.deployContract rand code bc).transactionHash.length = 66 ∧
     (∃ t, (Mock.deployContract rand code bc).address = "0x" ++ t ∧
       t.length = 40 ∧ t.data.all Js.isHexLower = true) ∧
     (∃ t, (Mock.deployContract rand code bc).transactionHash = "0x" ++ t ∧
       t.length = 64 ∧ t.data.all Js.isHexLower = true)) ∧
    (Routes.uploadPost extract generate rand text fn fd cid bc true uid).deployedCreate =
      some { conversionId := cid,
             contractAddress :=
               (Mock.deployContract rand (generate (extract text))
                 (Js.toLowerStr bc)).address,
             blockchain := bc,
             transactionHash :=
               (Mock.deployContract rand (generate (extract text))
                 (Js.toLowerStr bc)).transactionHash,
             solidityCode := generate (extract text) } ∧
    (Routes.uploadPost extract generate rand text fn fd cid bc true uid).deploymentAddress =
      some (Mock.deployContract rand (generate (extract text)) (Js.toLowerStr bc)).address := by
  refine ⟨⟨?_, ?_, ?_, ?_⟩, ?_, ?_⟩
  · show ("0x" ++ String.mk ((List.range 40).map (fun i =>
      Mock.hexDigitChar (rand i)))).length = 42
    rw [String.length_append]
    simp [String.length]
  · show ("0x" ++ String.mk ((List.range 64).map (fun i =>
      Mock.hexDigitChar (rand (40 + i))))).length = 66
    rw [String.length_append]
    simp [String.length]
  · refine ⟨String.mk ((List.range 40).map (fun i => Mock.hexDigitChar (rand i))),
      rfl, ?_, ?_⟩
    · simp [String.length]
    · simp only [List.all_eq_true, List.mem_map, List.mem_range]
      rintro c ⟨x, hx, rfl⟩
      exact hex_of_digit (rand x)
  · refine ⟨String.mk ((List.range 64).map (fun i => Mock.hexDigitChar (rand (40 + i)))),
      rfl, ?_, ?_⟩
    · simp [String.length]
    · simp only [List.all_eq_true, List.mem_map, List.mem_range]
      rintro c ⟨x, hx, rfl⟩
      exact hex_of_digit (rand (40 + x))
  · have ha := append0x_ne (String.mk ((List.range 40).map (fun i =>
      Mock.hexDigitChar (rand i))))
    have ht := append0x_ne (String.mk ((List.range 64).map (fun i =>
      Mock.hexDigitChar (rand (40 + i)))))
    simp [Routes.uploadPost, Mock.deployContract, Js.truthy, ha, ht]
  · simp [Routes.uploadPost, Mock.deployContract]
